import Mathlib

/-!
A Lean model of the Starcoin gas-metering core
(`src/vm/starcoin-gas/src/gas_meter.rs`), covering the gas meter state
machine (`StarcoinGasMeter`), the per-operation charge dispatch, and the
on-chain gas-schedule codec, together with theorems about their behaviour.

Machine integers: the Rust code works with `u64`-backed gas quantities via
`checked_sub`, which never overflows; balances and costs are therefore
modelled as `Nat`, with `checked_sub` translated explicitly.
-/

namespace StarcoinGas

/-- Status codes of the Move VM observable in this core; the only one the
metering code raises is OUT_OF_GAS. -/
inductive StatusCode where
| OUT_OF_GAS
deriving DecidableEq, Repr

/-- Result type of fallible meter operations, mirroring Rust
PartialVMResult with a PartialVMError carrying a status code. -/
abbrev PartialVMResult (α : Type) := Except StatusCode α

/-- Error location marker; the metering code only ever tags errors with
Location::Undefined. -/
inductive Location where
| Undefined
deriving DecidableEq, Repr

/-- A PartialVMError finished with a location, mirroring VMError. -/
structure VMError where
status : StatusCode
location : Location
deriving DecidableEq, Repr

/-- Result type mirroring Rust VMResult. -/
abbrev VMResult (α : Type) := Except VMError α

/-- Rust u64 checked_sub: some (a - b) when b fits under a, none on
underflow. -/
def checked_sub (a b : Nat) : Option Nat :=
if b ≤ a then some (a - b) else none

/-- Modelled from the spec: the simple-instruction cost table is a fixed
lookup, one constant per instruction kind (the enum itself lives in the
external move-vm-types crate); we index the kinds by a natural number. -/
abbrev SimpleInstruction := Nat

/-- A runtime value is observed by the meter only through its
legacy_abstract_memory_size; we model a value by that size (the ValueView
trait lives in the external move-vm-types crate). -/
abbrev ValueView := Nat

/-- Types are never inspected by the meter (every TypeView parameter in the
source is unused), so a type is modelled as a unit. -/
abbrev TypeView := Unit

/-- Module identifiers are never inspected by the meter (the module-id
parameters in the source are unused), so they are modelled as a unit. -/
abbrev ModuleId := Unit

/-- Instruction-level gas parameters: exactly the fields of the external
InstructionGasParameters record that gas_meter.rs reads, plus the
simple-instruction cost table (modelled from the spec as a fixed lookup per
instruction kind). -/
structure InstructionGasParameters where
call_per_arg : Nat
call_generic_per_arg : Nat
ld_const_per_byte : Nat
copy_loc_per_abs_mem_unit : Nat
move_loc_per_abs_mem_unit : Nat
st_loc_per_abs_mem_unit : Nat
pack_per_abs_mem_unit : Nat
pack_generic_per_abs_mem_unit : Nat
unpack_per_abs_mem_unit : Nat
unpack_generic_per_abs_mem_unit : Nat
read_ref_per_abs_mem_unit : Nat
write_ref_per_abs_mem_unit : Nat
eq_per_abs_mem_unit : Nat
imm_borrow_global_base : Nat
imm_borrow_global_generic_base : Nat
mut_borrow_global_base : Nat
mut_borrow_global_generic_base : Nat
exists_per_abs_mem_unit : Nat
exists_generic_per_abs_mem_unit : Nat
move_from_per_abs_mem_unit : Nat
move_from_generic_per_abs_mem_unit : Nat
move_to_per_abs_mem_unit : Nat
move_to_generic_per_abs_mem_unit : Nat
vec_pack_per_elem : Nat
vec_len_base : Nat
vec_imm_borrow_base : Nat
vec_mut_borrow_base : Nat
vec_push_back_per_abs_mem_unit : Nat
vec_pop_back_base : Nat
vec_unpack_per_expected_elem : Nat
vec_swap_base : Nat
simple_instr_table : SimpleInstruction → Nat

/-- The all-zero instruction parameter set. -/
def InstructionGasParameters.zeros : InstructionGasParameters where
call_per_arg := 0
call_generic_per_arg := 0
ld_const_per_byte := 0
copy_loc_per_abs_mem_unit := 0
move_loc_per_abs_mem_unit := 0
st_loc_per_abs_mem_unit := 0
pack_per_abs_mem_unit := 0
pack_generic_per_abs_mem_unit := 0
unpack_per_abs_mem_unit := 0
unpack_generic_per_abs_mem_unit := 0
read_ref_per_abs_mem_unit := 0
write_ref_per_abs_mem_unit := 0
eq_per_abs_mem_unit := 0
imm_borrow_global_base := 0
imm_borrow_global_generic_base := 0
mut_borrow_global_base := 0
mut_borrow_global_generic_base := 0
exists_per_abs_mem_unit := 0
exists_generic_per_abs_mem_unit := 0
move_from_per_abs_mem_unit := 0
move_from_generic_per_abs_mem_unit := 0
move_to_per_abs_mem_unit := 0
move_to_generic_per_abs_mem_unit := 0
vec_pack_per_elem := 0
vec_len_base := 0
vec_imm_borrow_base := 0
vec_mut_borrow_base := 0
vec_push_back_per_abs_mem_unit := 0
vec_pop_back_base := 0
vec_unpack_per_expected_elem := 0
vec_swap_base := 0
simple_instr_table := fun _ => 0

/-- The simple-instruction cost lookup (Modelled from the spec: one
constant per instruction kind; the Rust signature is fallible but the
lookup itself is a total match over the enum). -/
def InstructionGasParameters.simple_instr_cost (p : InstructionGasParameters)
(i : SimpleInstruction) : Nat :=
p.simple_instr_table i

/-- Modelled from the spec: transaction-level gas parameters — base
intrinsic cost, per-byte intrinsic cost, the scale factor between internal
and external gas units, and the write-set cost formula's result (the record
itself lives in the external gas-algebra-ext crate). -/
structure TransactionGasParameters where
base_intrinsic_gas : Nat
intrinsic_gas_per_byte : Nat
gas_unit_scaling_factor : Nat
write_set_gas : Nat
deriving DecidableEq, Repr

/-- The all-zero transaction parameter set. -/
def TransactionGasParameters.zeros : TransactionGasParameters :=
⟨0, 0, 0, 0⟩

/-- Modelled from the spec: the intrinsic cost of a transaction of the
given byte size is base plus per-byte rate times size. -/
def TransactionGasParameters.calculate_intrinsic_gas
(p : TransactionGasParameters) (txn_size : Nat) : Nat :=
p.base_intrinsic_gas + p.intrinsic_gas_per_byte * txn_size

/-- Modelled from the spec: the write-set cost formula of the transaction
group, a pure query. -/
def TransactionGasParameters.cal_write_set_gas (p : TransactionGasParameters) : Nat :=
p.write_set_gas

/-- Modelled from the spec: external-to-internal gas conversion multiplies
by the transaction group's scale factor. -/
def TransactionGasParameters.to_unit_with_params
(p : TransactionGasParameters) (external : Nat) : Nat :=
external * p.gas_unit_scaling_factor

/-- Modelled from the spec: internal-to-external gas conversion divides by
the scale factor, rounding down. -/
def TransactionGasParameters.to_unit_round_down_with_params
(p : TransactionGasParameters) (internal : Nat) : Nat :=
internal / p.gas_unit_scaling_factor

/-- Modelled from the spec: the miscellaneous parameter group is an opaque
flat record of cost constants never read by any charge method in this
core; we model it by its list of field values. -/
structure MiscGasParameters where
vals : List Nat
deriving DecidableEq, Repr

/-- The all-zero miscellaneous parameter set. -/
def MiscGasParameters.zeros : MiscGasParameters := ⟨[]⟩

/-- Gas parameters for all native functions: four sub-groups, one per
native library. Modelled from the spec: each sub-group is an opaque flat
record (the records live in external crates) never read by the charge
dispatch, represented by its list of field values. -/
structure NativeGasParameters where
move_stdlib : List Nat
nursery : List Nat
starcoin_natives : List Nat
table : List Nat
deriving DecidableEq, Repr

/-- The all-zero native parameter set. -/
def NativeGasParameters.zeros : NativeGasParameters := ⟨[], [], [], []⟩

/-- Gas parameters for everything needed to run the Starcoin blockchain:
the aggregate of the four groups (gas_meter.rs, StarcoinGasParameters). -/
structure StarcoinGasParameters where
misc : MiscGasParameters
instr : InstructionGasParameters
txn : TransactionGasParameters
natives : NativeGasParameters

/-- The all-zero top-level parameter set (StarcoinGasParameters::zeros). -/
def StarcoinGasParameters.zeros : StarcoinGasParameters where
misc := MiscGasParameters.zeros
instr := InstructionGasParameters.zeros
txn := TransactionGasParameters.zeros
natives := NativeGasParameters.zeros

/-- The official gas meter used inside the Starcoin VM: gas parameters, an
internal-gas balance, and the charging-enabled flag. -/
structure StarcoinGasMeter where
gas_params : StarcoinGasParameters
balance : Nat
charge : Bool

/-- StarcoinGasMeter::new — the supplied balance is in external units and
is converted with the transaction parameters; charging starts enabled. -/
def StarcoinGasMeter.new (gas_params : StarcoinGasParameters) (balance : Nat) :
StarcoinGasMeter :=
{ gas_params := gas_params
  balance := gas_params.txn.to_unit_with_params balance
  charge := true }

/-- StarcoinGasMeter::balance — convert back to external units, rounding
down. -/
def StarcoinGasMeter.external_balance (m : StarcoinGasMeter) : Nat :=
m.gas_params.txn.to_unit_round_down_with_params m.balance

/-- StarcoinGasMeter::deduct_gas — no-op when charging is disabled;
otherwise checked subtraction, clamping the balance to 0 and raising
OUT_OF_GAS on underflow. The Rust method mutates the meter and returns a
result; we return the result together with the updated meter. -/
def StarcoinGasMeter.deduct_gas (m : StarcoinGasMeter) (amount : Nat) :
PartialVMResult Unit × StarcoinGasMeter :=
if m.charge = false then (Except.ok (), m)
else
  match checked_sub m.balance amount with
  | some new_balance => (Except.ok (), { m with balance := new_balance })
  | none => (Except.error StatusCode.OUT_OF_GAS, { m with balance := 0 })

/-- StarcoinGasMeter::set_metering. -/
def StarcoinGasMeter.set_metering (m : StarcoinGasMeter) (enabled : Bool) :
StarcoinGasMeter :=
{ m with charge := enabled }

/-- Map the error of a result, mirroring Rust Result::map_err. -/
def mapErr {ε ε' α : Type} (f : ε → ε') : Except ε α → Except ε' α
| Except.ok a => Except.ok a
| Except.error e => Except.error (f e)

/-- StarcoinGasMeter::charge_intrinsic_gas_for_transaction — deduct the
transaction's intrinsic cost, finishing any error with
Location::Undefined. -/
def StarcoinGasMeter.charge_intrinsic_gas_for_transaction
(m : StarcoinGasMeter) (txn_size : Nat) : VMResult Unit × StarcoinGasMeter :=
let cost := m.gas_params.txn.calculate_intrinsic_gas txn_size
let r := m.deduct_gas cost
(mapErr (fun e => ⟨e, Location.Undefined⟩) r.1, r.2)

/-- StarcoinGasMeter::cal_write_set_gas. -/
def StarcoinGasMeter.cal_write_set_gas (m : StarcoinGasMeter) : Nat :=
m.gas_params.txn.cal_write_set_gas

/-- GasMeter::charge_simple_instr. -/
def StarcoinGasMeter.charge_simple_instr (m : StarcoinGasMeter)
(instr : SimpleInstruction) : PartialVMResult Unit × StarcoinGasMeter :=
let cost := m.gas_params.instr.simple_instr_cost instr
m.deduct_gas cost

/-- GasMeter::charge_call — cost is call_per_arg times (arg count + 1). -/
def StarcoinGasMeter.charge_call (m : StarcoinGasMeter)
(_module_id : ModuleId) (_func_name : String) (args : List ValueView) :
PartialVMResult Unit × StarcoinGasMeter :=
let cost := m.gas_params.instr.call_per_arg * (args.length + 1)
m.deduct_gas cost

/-- GasMeter::charge_call_generic — cost is call_generic_per_arg times
(type-arg count + arg count + 1). -/
def StarcoinGasMeter.charge_call_generic (m : StarcoinGasMeter)
(_module_id : ModuleId) (_func_name : String) (ty_args : List TypeView)
(args : List ValueView) : PartialVMResult Unit × StarcoinGasMeter :=
let cost := m.gas_params.instr.call_generic_per_arg * (ty_args.length + args.length + 1)
m.deduct_gas cost

/-- GasMeter::charge_ld_const. -/
def StarcoinGasMeter.charge_ld_const (m : StarcoinGasMeter) (size : Nat) :
PartialVMResult Unit × StarcoinGasMeter :=
let cost := m.gas_params.instr.ld_const_per_byte * size
m.deduct_gas cost

/-- GasMeter::charge_copy_loc. -/
def StarcoinGasMeter.charge_copy_loc (m : StarcoinGasMeter) (val : ValueView) :
PartialVMResult Unit × StarcoinGasMeter :=
let cost := m.gas_params.instr.copy_loc_per_abs_mem_unit * val
m.deduct_gas cost

/-- GasMeter::charge_move_loc. -/
def StarcoinGasMeter.charge_move_loc (m : StarcoinGasMeter) (val : ValueView) :
PartialVMResult Unit × StarcoinGasMeter :=
let cost := m.gas_params.instr.move_loc_per_abs_mem_unit * val
m.deduct_gas cost

/-- GasMeter::charge_store_loc. -/
def StarcoinGasMeter.charge_store_loc (m : StarcoinGasMeter) (val : ValueView) :
PartialVMResult Unit × StarcoinGasMeter :=
let cost := m.gas_params.instr.st_loc_per_abs_mem_unit * val
m.deduct_gas cost

/-- GasMeter::charge_pack — the size folds the per-field abstract memory
sizes on top of the field count; rate selected by the generic flag. -/
def StarcoinGasMeter.charge_pack (m : StarcoinGasMeter) (is_generic : Bool)
(args : List ValueView) : PartialVMResult Unit × StarcoinGasMeter :=
let size := args.foldl (fun acc val => acc + val) args.length
let cost :=
  match is_generic with
  | false => m.gas_params.instr.pack_per_abs_mem_unit * size
  | true => m.gas_params.instr.pack_generic_per_abs_mem_unit * size
m.deduct_gas cost

/-- GasMeter::charge_unpack. -/
def StarcoinGasMeter.charge_unpack (m : StarcoinGasMeter) (is_generic : Bool)
(args : List ValueView) : PartialVMResult Unit × StarcoinGasMeter :=
let size := args.foldl (fun acc val => acc + val) args.length
let cost :=
  match is_generic with
  | false => m.gas_params.instr.unpack_per_abs_mem_unit * size
  | true => m.gas_params.instr.unpack_generic_per_abs_mem_unit * size
m.deduct_gas cost

/-- GasMeter::charge_read_ref. -/
def StarcoinGasMeter.charge_read_ref (m : StarcoinGasMeter) (val : ValueView) :
PartialVMResult Unit × StarcoinGasMeter :=
let cost := m.gas_params.instr.read_ref_per_abs_mem_unit * val
m.deduct_gas cost

/-- GasMeter::charge_write_ref. -/
def StarcoinGasMeter.charge_write_ref (m : StarcoinGasMeter) (val : ValueView) :
PartialVMResult Unit × StarcoinGasMeter :=
let cost := m.gas_params.instr.write_ref_per_abs_mem_unit * val
m.deduct_gas cost

/-- GasMeter::charge_eq. -/
def StarcoinGasMeter.charge_eq (m : StarcoinGasMeter) (lhs rhs : ValueView) :
PartialVMResult Unit × StarcoinGasMeter :=
let cost := m.gas_params.instr.eq_per_abs_mem_unit * (lhs + rhs)
m.deduct_gas cost

/-- GasMeter::charge_neq — same rate as charge_eq. -/
def StarcoinGasMeter.charge_neq (m : StarcoinGasMeter) (lhs rhs : ValueView) :
PartialVMResult Unit × StarcoinGasMeter :=
let cost := m.gas_params.instr.eq_per_abs_mem_unit * (lhs + rhs)
m.deduct_gas cost

/-- GasMeter::charge_borrow_global — four fixed constants selected by the
mutability and generic flags. -/
def StarcoinGasMeter.charge_borrow_global (m : StarcoinGasMeter)
(is_mut is_generic : Bool) (_ty : TypeView) (_is_success : Bool) :
PartialVMResult Unit × StarcoinGasMeter :=
let cost :=
  match is_mut, is_generic with
  | false, false => m.gas_params.instr.imm_borrow_global_base
  | false, true => m.gas_params.instr.imm_borrow_global_generic_base
  | true, false => m.gas_params.instr.mut_borrow_global_base
  | true, true => m.gas_params.instr.mut_borrow_global_generic_base
m.deduct_gas cost

/-- The synthetic size charged by charge_exists for a resource that is
present (a reference), fixed at 8 abstract memory units in the source. -/
def reference_size : Nat := 8

/-- The synthetic size charged by charge_exists for a resource that is
absent, fixed at 100 abstract memory units in the source. -/
def min_exists_data_size : Nat := 100

/-- GasMeter::charge_exists — rate selected by the generic flag, synthetic
size selected by whether the resource exists. -/
def StarcoinGasMeter.charge_exists (m : StarcoinGasMeter) (is_generic : Bool)
(_ty : TypeView) (res_exists : Bool) : PartialVMResult Unit × StarcoinGasMeter :=
let param :=
  match is_generic with
  | false => m.gas_params.instr.exists_per_abs_mem_unit
  | true => m.gas_params.instr.exists_generic_per_abs_mem_unit
let size :=
  match res_exists with
  | false => min_exists_data_size
  | true => reference_size
let cost := param * size
m.deduct_gas cost

/-- GasMeter::charge_move_from — no deduction at all when the resource was
absent; otherwise rate (selected by the generic flag) times the value's
abstract memory size. -/
def StarcoinGasMeter.charge_move_from (m : StarcoinGasMeter) (is_generic : Bool)
(_ty : TypeView) (val : Option ValueView) : PartialVMResult Unit × StarcoinGasMeter :=
match val with
| some val =>
  let param :=
    match is_generic with
    | false => m.gas_params.instr.move_from_per_abs_mem_unit
    | true => m.gas_params.instr.move_from_generic_per_abs_mem_unit
  m.deduct_gas (param * val)
| none => (Except.ok (), m)

/-- GasMeter::charge_move_to. -/
def StarcoinGasMeter.charge_move_to (m : StarcoinGasMeter) (is_generic : Bool)
(_ty : TypeView) (val : ValueView) (_is_success : Bool) :
PartialVMResult Unit × StarcoinGasMeter :=
let param :=
  match is_generic with
  | false => m.gas_params.instr.move_to_per_abs_mem_unit
  | true => m.gas_params.instr.move_to_generic_per_abs_mem_unit
m.deduct_gas (param * val)

/-- GasMeter::charge_vec_pack. -/
def StarcoinGasMeter.charge_vec_pack (m : StarcoinGasMeter) (_ty : TypeView)
(args : List ValueView) : PartialVMResult Unit × StarcoinGasMeter :=
let cost := m.gas_params.instr.vec_pack_per_elem * args.length
m.deduct_gas cost

/-- GasMeter::charge_vec_len. -/
def StarcoinGasMeter.charge_vec_len (m : StarcoinGasMeter) (_ty : TypeView) :
PartialVMResult Unit × StarcoinGasMeter :=
m.deduct_gas m.gas_params.instr.vec_len_base

/-- GasMeter::charge_vec_borrow. -/
def StarcoinGasMeter.charge_vec_borrow (m : StarcoinGasMeter) (is_mut : Bool)
(_ty : TypeView) (_is_success : Bool) : PartialVMResult Unit × StarcoinGasMeter :=
let cost :=
  match is_mut with
  | false => m.gas_params.instr.vec_imm_borrow_base
  | true => m.gas_params.instr.vec_mut_borrow_base
m.deduct_gas cost

/-- GasMeter::charge_vec_push_back. -/
def StarcoinGasMeter.charge_vec_push_back (m : StarcoinGasMeter) (_ty : TypeView)
(val : ValueView) : PartialVMResult Unit × StarcoinGasMeter :=
let cost := m.gas_params.instr.vec_push_back_per_abs_mem_unit * val
m.deduct_gas cost

/-- GasMeter::charge_vec_pop_back — fixed base cost, independent of whether
a value was popped. -/
def StarcoinGasMeter.charge_vec_pop_back (m : StarcoinGasMeter) (_ty : TypeView)
(_val : Option ValueView) : PartialVMResult Unit × StarcoinGasMeter :=
m.deduct_gas m.gas_params.instr.vec_pop_back_base

/-- GasMeter::charge_vec_unpack. -/
def StarcoinGasMeter.charge_vec_unpack (m : StarcoinGasMeter) (_ty : TypeView)
(expect_num_elements : Nat) : PartialVMResult Unit × StarcoinGasMeter :=
let cost := m.gas_params.instr.vec_unpack_per_expected_elem * expect_num_elements
m.deduct_gas cost

/-- GasMeter::charge_vec_swap. -/
def StarcoinGasMeter.charge_vec_swap (m : StarcoinGasMeter) (_ty : TypeView) :
PartialVMResult Unit × StarcoinGasMeter :=
m.deduct_gas m.gas_params.instr.vec_swap_base

/-- GasMeter::charge_load_resource — no charge in this core. -/
def StarcoinGasMeter.charge_load_resource (m : StarcoinGasMeter)
(_loaded : Option Nat) : PartialVMResult Unit × StarcoinGasMeter :=
(Except.ok (), m)

/-- GasMeter::charge_native_function — relay the amount computed by the
native function's own gas parameters. -/
def StarcoinGasMeter.charge_native_function (m : StarcoinGasMeter)
(amount : Nat) : PartialVMResult Unit × StarcoinGasMeter :=
m.deduct_gas amount

/-- One invocation of a charge method, together with the observable shape
of the operation it charges for: the union of the parameter lists of every
charge method of StarcoinGasMeter. -/
inductive ChargeOp where
| simple_instr (i : SimpleInstruction)
| call (args : List ValueView)
| call_generic (ty_args : List TypeView) (args : List ValueView)
| ld_const (size : Nat)
| copy_loc (val : ValueView)
| move_loc (val : ValueView)
| store_loc (val : ValueView)
| pack (is_generic : Bool) (args : List ValueView)
| unpack (is_generic : Bool) (args : List ValueView)
| read_ref (val : ValueView)
| write_ref (val : ValueView)
| eq (lhs rhs : ValueView)
| neq (lhs rhs : ValueView)
| borrow_global (is_mut is_generic : Bool) (is_success : Bool)
| exists_check (is_generic : Bool) (res_exists : Bool)
| move_from (is_generic : Bool) (val : Option ValueView)
| move_to (is_generic : Bool) (val : ValueView) (is_success : Bool)
| vec_pack (args : List ValueView)
| vec_len
| vec_borrow (is_mut : Bool) (is_success : Bool)
| vec_push_back (val : ValueView)
| vec_pop_back (val : Option ValueView)
| vec_unpack (expect_num_elements : Nat)
| vec_swap
| load_resource (loaded : Option Nat)
| native_function (amount : Nat)
| intrinsic (txn_size : Nat)
deriving DecidableEq, Repr

/-- The gas amount an operation supplies from outside the parameter set:
zero for every operation except a native-function charge, whose amount is
computed by the native function's own gas parameters and handed in. -/
def ChargeOp.externalAmount : ChargeOp → Nat
| ChargeOp.native_function amount => amount
| _ => 0

/-- Dispatch one charge operation to the matching charge method of the
meter. The intrinsic charge returns a located error in the source; the
dispatcher reports its underlying status code. -/
def runCharge (op : ChargeOp) (m : StarcoinGasMeter) :
PartialVMResult Unit × StarcoinGasMeter :=
match op with
| ChargeOp.simple_instr i => m.charge_simple_instr i
| ChargeOp.call args => m.charge_call () "" args
| ChargeOp.call_generic ty_args args => m.charge_call_generic () "" ty_args args
| ChargeOp.ld_const size => m.charge_ld_const size
| ChargeOp.copy_loc val => m.charge_copy_loc val
| ChargeOp.move_loc val => m.charge_move_loc val
| ChargeOp.store_loc val => m.charge_store_loc val
| ChargeOp.pack g args => m.charge_pack g args
| ChargeOp.unpack g args => m.charge_unpack g args
| ChargeOp.read_ref val => m.charge_read_ref val
| ChargeOp.write_ref val => m.charge_write_ref val
| ChargeOp.eq lhs rhs => m.charge_eq lhs rhs
| ChargeOp.neq lhs rhs => m.charge_neq lhs rhs
| ChargeOp.borrow_global im g s => m.charge_borrow_global im g () s
| ChargeOp.exists_check g e => m.charge_exists g () e
| ChargeOp.move_from g val => m.charge_move_from g () val
| ChargeOp.move_to g val s => m.charge_move_to g () val s
| ChargeOp.vec_pack args => m.charge_vec_pack () args
| ChargeOp.vec_len => m.charge_vec_len ()
| ChargeOp.vec_borrow im s => m.charge_vec_borrow im () s
| ChargeOp.vec_push_back val => m.charge_vec_push_back () val
| ChargeOp.vec_pop_back val => m.charge_vec_pop_back () val
| ChargeOp.vec_unpack n => m.charge_vec_unpack () n
| ChargeOp.vec_swap => m.charge_vec_swap ()
| ChargeOp.load_resource l => m.charge_load_resource l
| ChargeOp.native_function amount => m.charge_native_function amount
| ChargeOp.intrinsic txn_size =>
  let r := m.charge_intrinsic_gas_for_transaction txn_size
  (mapErr VMError.status r.1, r.2)

/-- Run a sequence of charge operations, stopping at the first failure —
the interpreter aborts the transaction on the first deduction failure. The
boolean reports whether every charge succeeded. -/
def runOps : List ChargeOp → StarcoinGasMeter → Bool × StarcoinGasMeter
| [], m => (true, m)
| op :: rest, m =>
  match runCharge op m with
  | (Except.ok _, m1) => runOps rest m1
  | (Except.error _, m1) => (false, m1)

namespace OnChain

/-- The on-chain gas schedule: an ordered list of (name, u64 value) pairs.
Decoding consumes it as a BTreeMap keyed by name; we model the map view by
name lookup in the list. -/
abbrev Schedule := List (String × Nat)

/-- Map-style lookup by name (BTreeMap::get). -/
def lookup (m : Schedule) (k : String) : Option Nat :=
(m.find? fun q => q.1 == k).map fun q => q.2

/-- Modelled from the spec: a parameter group's decoder looks up each of
its field names in the schedule, in field order, and fails if any is
missing — presence is all-or-nothing per group (the group codecs live in
the external gas-algebra-ext and native crates). -/
def groupFromSchedule (keys : List String) (m : Schedule) : Option (List Nat) :=
match keys with
| [] => some []
| k :: ks =>
  (lookup m k).bind fun v => (groupFromSchedule ks m).map fun vs => v :: vs

/-- Modelled from the spec: a parameter group's encoder emits one
(name, value) pair per field, in field declaration order. -/
def groupToSchedule (keys : List String) (vals : List Nat) : Schedule :=
keys.zip vals

/-- Modelled from the spec: the schedule field names of the move-stdlib
native sub-group (representative names; the real list lives in the
external move-stdlib crate). -/
def moveStdlibKeys : List String :=
["move_stdlib.hash.sha2_256.per_byte", "move_stdlib.vector.length.base"]

/-- Modelled from the spec: the schedule field names of the nursery native
sub-group. -/
def nurseryKeys : List String :=
["nursery.debug.print.base"]

/-- Modelled from the spec: the schedule field names of the Starcoin
chain-native sub-group. -/
def starcoinNativesKeys : List String :=
["starcoin_natives.signature.ed25519.per_byte"]

/-- Modelled from the spec: the schedule field names of the table-extension
native sub-group. -/
def tableKeys : List String :=
["table.common.load.base"]

/-- Modelled from the spec: the schedule field names of the instruction
group (representative names; the real list lives in gas-algebra-ext). -/
def instrKeys : List String :=
["instr.call.per_arg", "instr.call_generic.per_arg", "instr.ld_const.per_byte"]

/-- Modelled from the spec: the schedule field names of the transaction
group. -/
def txnKeys : List String :=
["txn.min_transaction_gas_units", "txn.intrinsic_gas_per_byte",
 "txn.gas_unit_scaling_factor"]

/-- Modelled from the spec: the miscellaneous group is excluded from the
round-trip surface of the on-chain schedule — it contributes no required
schedule names. -/
def miscKeys : List String := []

/-- Gas parameters for all native functions, as seen by the schedule
codec: each sub-group is its ordered list of field values. -/
structure NativeGasParameters where
move_stdlib : List Nat
nursery : List Nat
starcoin_natives : List Nat
table : List Nat
deriving DecidableEq, Repr

/-- NativeGasParameters::from_on_chain_gas_schedule — all four sub-groups
must decode (gas_meter.rs lines 48-57). -/
def NativeGasParameters.from_on_chain_gas_schedule (m : Schedule) :
Option NativeGasParameters :=
(groupFromSchedule moveStdlibKeys m).bind fun a =>
(groupFromSchedule nurseryKeys m).bind fun b =>
(groupFromSchedule starcoinNativesKeys m).bind fun c =>
(groupFromSchedule tableKeys m).map fun d => ⟨a, b, c, d⟩

/-- NativeGasParameters::to_on_chain_gas_schedule — concatenate the
sub-group encodings in sub-group order (gas_meter.rs lines 59-67). -/
def NativeGasParameters.to_on_chain_gas_schedule (p : NativeGasParameters) :
Schedule :=
groupToSchedule moveStdlibKeys p.move_stdlib
  ++ groupToSchedule nurseryKeys p.nursery
  ++ groupToSchedule starcoinNativesKeys p.starcoin_natives
  ++ groupToSchedule tableKeys p.table

/-- Top-level gas parameters as seen by the schedule codec: one value list
per flat group, plus the nested native group. -/
structure StarcoinGasParameters where
misc : List Nat
instr : List Nat
txn : List Nat
natives : NativeGasParameters
deriving DecidableEq, Repr

/-- StarcoinGasParameters::from_on_chain_gas_schedule — misc, natives,
instruction and transaction groups must all decode (gas_meter.rs lines
101-110). -/
def StarcoinGasParameters.from_on_chain_gas_schedule (m : Schedule) :
Option StarcoinGasParameters :=
(groupFromSchedule miscKeys m).bind fun mi =>
(NativeGasParameters.from_on_chain_gas_schedule m).bind fun na =>
(groupFromSchedule instrKeys m).bind fun ins =>
(groupFromSchedule txnKeys m).map fun tx => ⟨mi, ins, tx, na⟩

/-- StarcoinGasParameters::to_on_chain_gas_schedule — instruction, then
transaction, then natives; the miscellaneous group is not emitted
(gas_meter.rs lines 112-119). -/
def StarcoinGasParameters.to_on_chain_gas_schedule (p : StarcoinGasParameters) :
Schedule :=
groupToSchedule instrKeys p.instr ++ groupToSchedule txnKeys p.txn
  ++ p.natives.to_on_chain_gas_schedule

/-- Modelled from the spec: the hardcoded initial-default native parameter
values baked into the binary (representative values). -/
def NativeGasParameters.initial : NativeGasParameters :=
⟨[4, 1], [10], [61], [302]⟩

/-- Modelled from the spec: the hardcoded initial-default top-level
parameter values baked into the binary (representative values). -/
def StarcoinGasParameters.initial : StarcoinGasParameters :=
⟨[], [1132, 582, 16], [600, 8, 80], NativeGasParameters.initial⟩

/-- Every schedule name the top-level decoder requires, across the four
groups (the miscellaneous group requires none). -/
def requiredKeys : List String :=
miscKeys ++ instrKeys ++ txnKeys
  ++ moveStdlibKeys ++ nurseryKeys ++ starcoinNativesKeys ++ tableKeys

end OnChain

/-- The encoding of the initial-default top-level parameters, used as a
concrete accepted schedule. -/
def sampleSchedule : OnChain.Schedule :=
OnChain.StarcoinGasParameters.initial.to_on_chain_gas_schedule

/-- A schedule that the decoder accepts but that is not reproduced by
re-encoding: the initial encoding extended with an unrecognized name. -/
def badSchedule : OnChain.Schedule :=
sampleSchedule ++ [("bad.unrecognized", 7)]

/-- A sample meter with charging enabled. -/
def mEnabled : StarcoinGasMeter :=
⟨StarcoinGasParameters.zeros, 10, true⟩

/-- A sample meter with charging disabled and balance 5. -/
def mDisabled : StarcoinGasMeter :=
⟨StarcoinGasParameters.zeros, 5, false⟩

/-- A sample meter whose call rates match the spec scenario: call_per_arg
is 2 and call_generic_per_arg is 3, balance 100, charging enabled. -/
def mCallRates : StarcoinGasMeter :=
⟨{ StarcoinGasParameters.zeros with
   instr := { InstructionGasParameters.zeros with
              call_per_arg := 2, call_generic_per_arg := 3 } },
 100, true⟩

/-- A sample meter over the all-zero parameter set, balance 7, charging
enabled. -/
def mZero : StarcoinGasMeter :=
⟨StarcoinGasParameters.zeros, 7, true⟩

/-- A sample sequence of charge operations exercising many operation
kinds, with large operand sizes and a zero native amount. -/
def sampleOps : List ChargeOp :=
[ChargeOp.simple_instr 3, ChargeOp.call [5, 6],
 ChargeOp.call_generic [(), ()] [7], ChargeOp.ld_const 1000,
 ChargeOp.copy_loc 44, ChargeOp.move_loc 44, ChargeOp.store_loc 44,
 ChargeOp.pack true [9, 9, 9], ChargeOp.unpack false [2],
 ChargeOp.read_ref 8, ChargeOp.write_ref 8, ChargeOp.eq 4 5,
 ChargeOp.neq 4 5, ChargeOp.borrow_global true false true,
 ChargeOp.exists_check false false, ChargeOp.move_from true (some 1000000),
 ChargeOp.move_to false 12 true, ChargeOp.vec_pack [1, 2, 3],
 ChargeOp.vec_len, ChargeOp.vec_borrow true false,
 ChargeOp.vec_push_back 99, ChargeOp.vec_pop_back (some 3),
 ChargeOp.vec_unpack 44, ChargeOp.vec_swap,
 ChargeOp.load_resource (some 5), ChargeOp.native_function 0,
 ChargeOp.intrinsic 999]

/-! Helper lemmas about the deduction primitive and the dispatcher. -/

/-- Deduction never touches the gas parameters or the charging flag. -/
theorem deduct_gas_frame (m : StarcoinGasMeter) (amount : Nat) :
(m.deduct_gas amount).2.gas_params = m.gas_params
∧ (m.deduct_gas amount).2.charge = m.charge := by
unfold StarcoinGasMeter.deduct_gas
by_cases hc : m.charge = false
· simp [hc]
· simp only [hc, if_false]
  cases checked_sub m.balance amount <;> simp

/-- With charging disabled, deduction is a no-op that succeeds. -/
theorem deduct_gas_disabled (m : StarcoinGasMeter) (amount : Nat)
(hc : m.charge = false) : m.deduct_gas amount = (Except.ok (), m) := by
unfold StarcoinGasMeter.deduct_gas
simp [hc]

/-- Deducting zero always succeeds and leaves the meter unchanged. -/
theorem deduct_gas_zero (m : StarcoinGasMeter) :
m.deduct_gas 0 = (Except.ok (), m) := by
have hs : checked_sub m.balance 0 = some m.balance := by simp [checked_sub]
unfold StarcoinGasMeter.deduct_gas
by_cases hc : m.charge = false
· simp [hc]
· rw [if_neg hc, hs]

/-- Every dispatched charge operation preserves the gas parameters and the
charging flag. -/
theorem runCharge_frame (op : ChargeOp) (m : StarcoinGasMeter) :
(runCharge op m).2.gas_params = m.gas_params
∧ (runCharge op m).2.charge = m.charge := by
cases op
case move_from g val =>
  cases val
  · exact ⟨rfl, rfl⟩
  · exact deduct_gas_frame m _
case load_resource l => exact ⟨rfl, rfl⟩
all_goals exact deduct_gas_frame m _

/-- With charging disabled, every dispatched charge operation succeeds and
leaves the meter unchanged. -/
theorem runCharge_disabled (op : ChargeOp) (m : StarcoinGasMeter)
(hc : m.charge = false) : runCharge op m = (Except.ok (), m) := by
have hd : ∀ a, m.deduct_gas a = (Except.ok (), m) :=
  fun a => deduct_gas_disabled m a hc
cases op
case move_from g val => cases val <;>
  simp [runCharge, StarcoinGasMeter.charge_move_from, hd]
case load_resource l => rfl
case intrinsic t =>
  simp [runCharge, StarcoinGasMeter.charge_intrinsic_gas_for_transaction,
    hd, mapErr]
all_goals
  simp [runCharge, StarcoinGasMeter.charge_simple_instr,
    StarcoinGasMeter.charge_call, StarcoinGasMeter.charge_call_generic,
    StarcoinGasMeter.charge_ld_const, StarcoinGasMeter.charge_copy_loc,
    StarcoinGasMeter.charge_move_loc, StarcoinGasMeter.charge_store_loc,
    StarcoinGasMeter.charge_pack, StarcoinGasMeter.charge_unpack,
    StarcoinGasMeter.charge_read_ref, StarcoinGasMeter.charge_write_ref,
    StarcoinGasMeter.charge_eq, StarcoinGasMeter.charge_neq,
    StarcoinGasMeter.charge_borrow_global, StarcoinGasMeter.charge_exists,
    StarcoinGasMeter.charge_move_to, StarcoinGasMeter.charge_vec_pack,
    StarcoinGasMeter.charge_vec_len, StarcoinGasMeter.charge_vec_borrow,
    StarcoinGasMeter.charge_vec_push_back,
    StarcoinGasMeter.charge_vec_pop_back,
    StarcoinGasMeter.charge_vec_unpack, StarcoinGasMeter.charge_vec_swap,
    StarcoinGasMeter.charge_native_function, hd]

/-! Theorems settling the claims. -/

/-- C1: with charging enabled, deduct_gas succeeds iff the amount is at
most the balance; on success the balance drops by the amount, on underflow
the balance is clamped to 0 and the call fails with OUT_OF_GAS; after any
deduction the balance is max(0, previous - amount); once the balance is 0
every positive deduction fails; deducting 0 always succeeds. -/
theorem deduct_gas_spec (m : StarcoinGasMeter) (amount : Nat)
(hc : m.charge = true) :
((m.deduct_gas amount).1 = Except.ok () ↔ amount ≤ m.balance)
∧ (amount ≤ m.balance → (m.deduct_gas amount).2.balance = m.balance - amount)
∧ (m.balance < amount →
    (m.deduct_gas amount).1 = Except.error StatusCode.OUT_OF_GAS
    ∧ (m.deduct_gas amount).2.balance = 0)
∧ ((m.deduct_gas amount).2.balance : Int)
    = max 0 ((m.balance : Int) - (amount : Int))
∧ (m.balance = 0 → 0 < amount →
    (m.deduct_gas amount).1 = Except.error StatusCode.OUT_OF_GAS)
∧ (m.deduct_gas 0).1 = Except.ok () := by
have h0 : (m.deduct_gas 0).1 = Except.ok () := by
  rw [deduct_gas_zero]
by_cases h : amount ≤ m.balance
· have hred : m.deduct_gas amount
      = (Except.ok (), { m with balance := m.balance - amount }) := by
    unfold StarcoinGasMeter.deduct_gas checked_sub
    simp [hc, h]
  refine ⟨?_, ?_, ?_, ?_, ?_, h0⟩
  · simp [hred, h]
  · intro _; simp [hred]
  · intro hlt; exact absurd h (Nat.not_le.mpr hlt)
  · simp only [hred]; omega
  · intro hb ha; exact absurd h (by omega)
· have hred : m.deduct_gas amount
      = (Except.error StatusCode.OUT_OF_GAS, { m with balance := 0 }) := by
    unfold StarcoinGasMeter.deduct_gas checked_sub
    simp [hc, h]
  refine ⟨?_, ?_, ?_, ?_, ?_, h0⟩
  · simp [hred, h]
  · intro h2; exact absurd h2 h
  · intro _; simp [hred]
  · simp only [hred]; omega
  · intro hb ha; simp [hred]

/-- Witness for C1 at a concrete meter: balance 10, charging enabled,
deducting 4. -/
theorem deduct_gas_spec_witness :
((mEnabled.deduct_gas 4).1 = Except.ok () ↔ 4 ≤ mEnabled.balance)
∧ (4 ≤ mEnabled.balance → (mEnabled.deduct_gas 4).2.balance = mEnabled.balance - 4)
∧ (mEnabled.balance < 4 →
    (mEnabled.deduct_gas 4).1 = Except.error StatusCode.OUT_OF_GAS
    ∧ (mEnabled.deduct_gas 4).2.balance = 0)
∧ ((mEnabled.deduct_gas 4).2.balance : Int)
    = max 0 ((mEnabled.balance : Int) - (4 : Int))
∧ (mEnabled.balance = 0 → 0 < 4 →
    (mEnabled.deduct_gas 4).1 = Except.error StatusCode.OUT_OF_GAS)
∧ (mEnabled.deduct_gas 0).1 = Except.ok () :=
deduct_gas_spec mEnabled 4 rfl

/-- Under the all-zero parameter set every dispatched charge operation has
zero cost (given that any native-supplied amount is the zero the zeroed
native parameters compute), so it succeeds and leaves the meter
unchanged. -/
theorem runCharge_zeros (op : ChargeOp) (m : StarcoinGasMeter)
(hp : m.gas_params = StarcoinGasParameters.zeros)
(ha : op.externalAmount = 0) : runCharge op m = (Except.ok (), m) := by
cases op
case move_from g val =>
  cases val with
  | none => rfl
  | some v => cases g <;>
      simp [runCharge, StarcoinGasMeter.charge_move_from, hp,
        StarcoinGasParameters.zeros, InstructionGasParameters.zeros,
        deduct_gas_zero]
case load_resource l => rfl
case native_function a =>
  simp only [ChargeOp.externalAmount] at ha
  simp [runCharge, StarcoinGasMeter.charge_native_function, ha,
    deduct_gas_zero]
case intrinsic t =>
  simp [runCharge, StarcoinGasMeter.charge_intrinsic_gas_for_transaction,
    TransactionGasParameters.calculate_intrinsic_gas, hp,
    StarcoinGasParameters.zeros, TransactionGasParameters.zeros,
    deduct_gas_zero, mapErr]
case pack g args => cases g <;>
  simp [runCharge, StarcoinGasMeter.charge_pack, hp,
    StarcoinGasParameters.zeros, InstructionGasParameters.zeros,
    deduct_gas_zero]
case unpack g args => cases g <;>
  simp [runCharge, StarcoinGasMeter.charge_unpack, hp,
    StarcoinGasParameters.zeros, InstructionGasParameters.zeros,
    deduct_gas_zero]
case borrow_global im g s => cases im <;> cases g <;>
  simp [runCharge, StarcoinGasMeter.charge_borrow_global, hp,
    StarcoinGasParameters.zeros, InstructionGasParameters.zeros,
    deduct_gas_zero]
case exists_check g e => cases g <;>
  simp [runCharge, StarcoinGasMeter.charge_exists, hp,
    StarcoinGasParameters.zeros, InstructionGasParameters.zeros,
    deduct_gas_zero]
case move_to g v s => cases g <;>
  simp [runCharge, StarcoinGasMeter.charge_move_to, hp,
    StarcoinGasParameters.zeros, InstructionGasParameters.zeros,
    deduct_gas_zero]
case vec_borrow im s => cases im <;>
  simp [runCharge, StarcoinGasMeter.charge_vec_borrow, hp,
    StarcoinGasParameters.zeros, InstructionGasParameters.zeros,
    deduct_gas_zero]
all_goals
  simp [runCharge, StarcoinGasMeter.charge_simple_instr,
    InstructionGasParameters.simple_instr_cost,
    StarcoinGasMeter.charge_call, StarcoinGasMeter.charge_call_generic,
    StarcoinGasMeter.charge_ld_const, StarcoinGasMeter.charge_copy_loc,
    StarcoinGasMeter.charge_move_loc, StarcoinGasMeter.charge_store_loc,
    StarcoinGasMeter.charge_pack, StarcoinGasMeter.charge_unpack,
    StarcoinGasMeter.charge_read_ref, StarcoinGasMeter.charge_write_ref,
    StarcoinGasMeter.charge_eq, StarcoinGasMeter.charge_neq,
    StarcoinGasMeter.charge_borrow_global, StarcoinGasMeter.charge_exists,
    StarcoinGasMeter.charge_move_to, StarcoinGasMeter.charge_vec_pack,
    StarcoinGasMeter.charge_vec_len, StarcoinGasMeter.charge_vec_borrow,
    StarcoinGasMeter.charge_vec_push_back,
    StarcoinGasMeter.charge_vec_pop_back,
    StarcoinGasMeter.charge_vec_unpack, StarcoinGasMeter.charge_vec_swap,
    hp, StarcoinGasParameters.zeros, InstructionGasParameters.zeros,
    deduct_gas_zero]

/-- C2: with the charging flag disabled, every deduction of any amount and
every charge method succeeds and leaves the meter — in particular its
balance — unchanged. -/
theorem disabled_metering_noop (m : StarcoinGasMeter) (amount : Nat)
(op : ChargeOp) (hc : m.charge = false) :
m.deduct_gas amount = (Except.ok (), m)
∧ runCharge op m = (Except.ok (), m) :=
⟨deduct_gas_disabled m amount hc, runCharge_disabled op m hc⟩

/-- Witness for C2: the spec scenario — balance 5, charging disabled,
deducting 1000000 succeeds and leaves the meter unchanged. -/
theorem disabled_metering_noop_witness :
mDisabled.deduct_gas 1000000 = (Except.ok (), mDisabled)
∧ runCharge (ChargeOp.call [1, 2, 3]) mDisabled = (Except.ok (), mDisabled) :=
disabled_metering_noop mDisabled 1000000 (ChargeOp.call [1, 2, 3]) rfl

/-- C3: charge_call deducts exactly call_per_arg times (arg count + 1) and
charge_call_generic deducts exactly call_generic_per_arg times
(type-arg count + arg count + 1); with call_per_arg 2 and 3 arguments the
deduction is 8 units, and with call_generic_per_arg 3, 1 type argument and
2 value arguments it is 12 units. -/
theorem charge_call_cost :
(∀ (m : StarcoinGasMeter) (mid : ModuleId) (f : String) (args : List ValueView),
  m.charge_call mid f args
    = m.deduct_gas (m.gas_params.instr.call_per_arg * (args.length + 1)))
∧ (∀ (m : StarcoinGasMeter) (mid : ModuleId) (f : String)
    (ty_args : List TypeView) (args : List ValueView),
  m.charge_call_generic mid f ty_args args
    = m.deduct_gas (m.gas_params.instr.call_generic_per_arg
        * (ty_args.length + args.length + 1)))
∧ (∀ (m : StarcoinGasMeter) (mid : ModuleId) (f : String) (args : List ValueView),
  m.charge = true → m.gas_params.instr.call_per_arg = 2 → args.length = 3 →
  8 ≤ m.balance →
  (m.charge_call mid f args).1 = Except.ok ()
  ∧ (m.charge_call mid f args).2.balance = m.balance - 8)
∧ (∀ (m : StarcoinGasMeter) (mid : ModuleId) (f : String)
    (ty_args : List TypeView) (args : List ValueView),
  m.charge = true → m.gas_params.instr.call_generic_per_arg = 3 →
  ty_args.length = 1 → args.length = 2 → 12 ≤ m.balance →
  (m.charge_call_generic mid f ty_args args).1 = Except.ok ()
  ∧ (m.charge_call_generic mid f ty_args args).2.balance = m.balance - 12) := by
refine ⟨fun m mid f args => rfl, fun m mid f ty_args args => rfl, ?_, ?_⟩
· intro m mid f args hc hrate hlen hbal
  have hred : m.charge_call mid f args = m.deduct_gas 8 := by
    simp [StarcoinGasMeter.charge_call, hrate, hlen]
  have hd : m.deduct_gas 8
      = (Except.ok (), { m with balance := m.balance - 8 }) := by
    unfold StarcoinGasMeter.deduct_gas checked_sub
    simp [hc, hbal]
  simp [hred, hd]
· intro m mid f ty_args args hc hrate hty hlen hbal
  have hred : m.charge_call_generic mid f ty_args args = m.deduct_gas 12 := by
    simp [StarcoinGasMeter.charge_call_generic, hrate, hty, hlen]
  have hd : m.deduct_gas 12
      = (Except.ok (), { m with balance := m.balance - 12 }) := by
    unfold StarcoinGasMeter.deduct_gas checked_sub
    simp [hc, hbal]
  simp [hred, hd]

/-- Witness for C3: on a meter with call_per_arg 2, call_generic_per_arg 3
and balance 100, a call with 3 arguments leaves 92 units and a generic
call with 1 type argument and 2 value arguments leaves 88 units. -/
theorem charge_call_cost_witness :
((mCallRates.charge_call () "f" [7, 7, 7]).1 = Except.ok ()
∧ (mCallRates.charge_call () "f" [7, 7, 7]).2.balance = mCallRates.balance - 8)
∧ ((mCallRates.charge_call_generic () "g" [()] [5, 5]).1 = Except.ok ()
∧ (mCallRates.charge_call_generic () "g" [()] [5, 5]).2.balance
    = mCallRates.balance - 12) :=
⟨charge_call_cost.2.2.1 mCallRates () "f" [7, 7, 7] rfl rfl rfl (by decide),
 charge_call_cost.2.2.2 mCallRates () "g" [()] [5, 5] rfl rfl rfl rfl (by decide)⟩

/-- C6: with the all-zero parameter set, any sequence of charge operations
(whatever the instruction kinds, argument counts, byte sizes and abstract
memory sizes; native-supplied amounts are the zeros computed by the zeroed
native parameters) succeeds in full and leaves the meter, and hence its
balance, unchanged. -/
theorem zero_params_free (ops : List ChargeOp) (m : StarcoinGasMeter)
(hp : m.gas_params = StarcoinGasParameters.zeros)
(hn : ∀ op ∈ ops, op.externalAmount = 0) :
runOps ops m = (true, m) := by
induction ops with
| nil => rfl
| cons op rest ih =>
  have h1 : runCharge op m = (Except.ok (), m) :=
    runCharge_zeros op m hp (hn op (List.mem_cons_self op rest))
  simp only [runOps, h1]
  exact ih fun o ho => hn o (List.mem_cons_of_mem op ho)

/-- Witness for C6: a concrete zero-parameter meter with balance 7 runs a
27-operation sample sequence with every charge succeeding and the meter
unchanged. -/
theorem zero_params_free_witness :
runOps sampleOps mZero = (true, mZero) :=
zero_params_free sampleOps mZero rfl (by decide)

/-- C7: charge_move_from for an absent resource performs no deduction and
always succeeds, whatever the rates and balance; for a present resource it
deducts the rate selected by the generic flag times the value's abstract
memory size. -/
theorem charge_move_from_spec (m : StarcoinGasMeter) (is_generic : Bool)
(ty : TypeView) (v : ValueView) :
m.charge_move_from is_generic ty none = (Except.ok (), m)
∧ m.charge_move_from is_generic ty (some v)
    = m.deduct_gas
        ((if is_generic then m.gas_params.instr.move_from_generic_per_abs_mem_unit
          else m.gas_params.instr.move_from_per_abs_mem_unit) * v) := by
cases is_generic <;> exact ⟨rfl, rfl⟩

/-- C8: charge_exists deducts rate times synthetic size, the rate selected
by the generic flag and the synthetic size being the fixed constant 8 when
the resource exists and the strictly larger fixed constant 100 when it
does not. -/
theorem charge_exists_spec (m : StarcoinGasMeter) (is_generic res_exists : Bool)
(ty : TypeView) :
m.charge_exists is_generic ty res_exists
  = m.deduct_gas
      ((if is_generic then m.gas_params.instr.exists_generic_per_abs_mem_unit
        else m.gas_params.instr.exists_per_abs_mem_unit)
       * (if res_exists then reference_size else min_exists_data_size))
∧ reference_size = 8 ∧ min_exists_data_size = 100
∧ reference_size < min_exists_data_size := by
refine ⟨?_, rfl, rfl, by decide⟩
cases is_generic <;> cases res_exists <;> rfl

/-- C10: every dispatched charge method and deduct_gas leave the gas
parameters and the charging flag unchanged (only the balance may change),
and set_metering changes only the charging flag, leaving the balance and
the gas parameters unchanged. -/
theorem charge_frame_effects (op : ChargeOp) (m : StarcoinGasMeter)
(amount : Nat) (enabled : Bool) :
(runCharge op m).2.gas_params = m.gas_params
∧ (runCharge op m).2.charge = m.charge
∧ (m.deduct_gas amount).2.gas_params = m.gas_params
∧ (m.deduct_gas amount).2.charge = m.charge
∧ (m.set_metering enabled).balance = m.balance
∧ (m.set_metering enabled).gas_params = m.gas_params
∧ (m.set_metering enabled).charge = enabled :=
⟨(runCharge_frame op m).1, (runCharge_frame op m).2,
 (deduct_gas_frame m amount).1, (deduct_gas_frame m amount).2,
 rfl, rfl, rfl⟩

/-! Helper lemmas about the schedule codec. -/

open OnChain (lookup groupFromSchedule miscKeys instrKeys txnKeys
  moveStdlibKeys nurseryKeys starcoinNativesKeys tableKeys requiredKeys)

/-- A name found in a schedule is still found, with the same value, after
appending further entries. -/
theorem lookup_append_of_some (m extra : OnChain.Schedule) (k : String)
(v : Nat) (h : lookup m k = some v) : lookup (m ++ extra) k = some v := by
unfold OnChain.lookup at h ⊢
rw [List.find?_append]
rcases hf : m.find? (fun q => q.1 == k) with _ | q
· rw [hf] at h; simp at h
· rw [hf] at h
  rw [hf]
  exact h

/-- A group that decodes from a schedule decodes to the same values after
appending further entries. -/
theorem groupFromSchedule_append (keys : List String) (m extra : OnChain.Schedule)
(vs : List Nat) (h : groupFromSchedule keys m = some vs) :
groupFromSchedule keys (m ++ extra) = some vs := by
induction keys generalizing vs with
| nil => exact h
| cons k ks ih =>
  unfold OnChain.groupFromSchedule at h ⊢
  rcases hl : lookup m k with _ | v
  · rw [hl] at h; simp at h
  · rw [hl] at h
    simp only [Option.some_bind] at h
    rcases hg : groupFromSchedule ks m with _ | ws
    · rw [hg] at h; simp at h
    · rw [hg] at h
      simp only [Option.map_some'] at h
      rw [lookup_append_of_some m extra k v hl]
      simp only [Option.some_bind]
      rw [ih ws hg]
      simpa using h

/-- A group decodes successfully exactly when every one of its field names
is present in the schedule. -/
theorem groupFromSchedule_isSome_iff (keys : List String) (m : OnChain.Schedule) :
(groupFromSchedule keys m).isSome = true
↔ ∀ k ∈ keys, (lookup m k).isSome = true := by
induction keys with
| nil => simp [OnChain.groupFromSchedule]
| cons k ks ih =>
  have hun : groupFromSchedule (k :: ks) m
      = (lookup m k).bind fun v => (groupFromSchedule ks m).map fun vs => v :: vs := rfl
  rcases hl : lookup m k with _ | v
  · constructor
    · intro h
      rw [hun, hl] at h
      simp at h
    · intro hall
      have hk := hall k (List.mem_cons_self k ks)
      rw [hl] at hk
      simp at hk
  · rcases hg : groupFromSchedule ks m with _ | ws
    · constructor
      · intro h
        rw [hun, hl, hg] at h
        simp at h
      · intro hall
        have hks : ∀ x ∈ ks, (lookup m x).isSome = true :=
          fun x hx => hall x (List.mem_cons_of_mem k hx)
        rw [← ih, hg] at hks
        simp at hks
    · constructor
      · intro h x hx
        rcases List.mem_cons.mp hx with rfl | hx2
        · rw [hl]; rfl
        · refine (ih.mp ?_) x hx2
          rw [hg]; rfl
      · intro hall
        rw [hun, hl, hg]
        rfl

/-- The native group decodes successfully exactly when each of its four
sub-groups does. -/
theorem native_from_isSome (m : OnChain.Schedule) :
(OnChain.NativeGasParameters.from_on_chain_gas_schedule m).isSome = true
↔ ((groupFromSchedule moveStdlibKeys m).isSome = true
  ∧ (groupFromSchedule nurseryKeys m).isSome = true
  ∧ (groupFromSchedule starcoinNativesKeys m).isSome = true
  ∧ (groupFromSchedule tableKeys m).isSome = true) := by
unfold OnChain.NativeGasParameters.from_on_chain_gas_schedule
cases groupFromSchedule moveStdlibKeys m <;>
cases groupFromSchedule nurseryKeys m <;>
cases groupFromSchedule starcoinNativesKeys m <;>
cases groupFromSchedule tableKeys m <;> simp

/-- The top-level decode succeeds exactly when all four groups decode. -/
theorem starcoin_from_isSome (m : OnChain.Schedule) :
(OnChain.StarcoinGasParameters.from_on_chain_gas_schedule m).isSome = true
↔ ((groupFromSchedule miscKeys m).isSome = true
  ∧ (OnChain.NativeGasParameters.from_on_chain_gas_schedule m).isSome = true
  ∧ (groupFromSchedule instrKeys m).isSome = true
  ∧ (groupFromSchedule txnKeys m).isSome = true) := by
unfold OnChain.StarcoinGasParameters.from_on_chain_gas_schedule
cases groupFromSchedule miscKeys m <;>
cases OnChain.NativeGasParameters.from_on_chain_gas_schedule m <;>
cases groupFromSchedule instrKeys m <;>
cases groupFromSchedule txnKeys m <;> simp

/-- A decoded native group survives appending entries to the schedule. -/
theorem native_from_append (m extra : OnChain.Schedule)
(p : OnChain.NativeGasParameters)
(h : OnChain.NativeGasParameters.from_on_chain_gas_schedule m = some p) :
OnChain.NativeGasParameters.from_on_chain_gas_schedule (m ++ extra) = some p := by
unfold OnChain.NativeGasParameters.from_on_chain_gas_schedule at h ⊢
rcases h1 : groupFromSchedule moveStdlibKeys m with _ | a <;> rw [h1] at h
· simp at h
rcases h2 : groupFromSchedule nurseryKeys m with _ | b <;> rw [h2] at h
· simp at h
rcases h3 : groupFromSchedule starcoinNativesKeys m with _ | c <;> rw [h3] at h
· simp at h
rcases h4 : groupFromSchedule tableKeys m with _ | d <;> rw [h4] at h
· simp at h
rw [groupFromSchedule_append _ _ extra _ h1,
  groupFromSchedule_append _ _ extra _ h2,
  groupFromSchedule_append _ _ extra _ h3,
  groupFromSchedule_append _ _ extra _ h4]
simpa using h

/-! Theorems settling the codec claims. -/

/-- C5: top-level decoding returns none whenever any required name of any
of the four groups is missing from the schedule, succeeds exactly when
every group decodes, and on success every group of the result is exactly
that group's own decode — never a partial fill. -/
theorem from_on_chain_gas_schedule_complete (m : OnChain.Schedule) :
((OnChain.StarcoinGasParameters.from_on_chain_gas_schedule m).isSome = true
  ↔ ∀ k ∈ requiredKeys, (lookup m k).isSome = true)
∧ (∀ k ∈ requiredKeys, lookup m k = none →
    OnChain.StarcoinGasParameters.from_on_chain_gas_schedule m = none)
∧ (∀ p, OnChain.StarcoinGasParameters.from_on_chain_gas_schedule m = some p →
    groupFromSchedule miscKeys m = some p.misc
    ∧ groupFromSchedule instrKeys m = some p.instr
    ∧ groupFromSchedule txnKeys m = some p.txn
    ∧ OnChain.NativeGasParameters.from_on_chain_gas_schedule m = some p.natives) := by
have hiff : (OnChain.StarcoinGasParameters.from_on_chain_gas_schedule m).isSome = true
    ↔ ∀ k ∈ requiredKeys, (lookup m k).isSome = true := by
  rw [starcoin_from_isSome, native_from_isSome]
  simp only [OnChain.requiredKeys, List.forall_mem_append]
  rw [← groupFromSchedule_isSome_iff, ← groupFromSchedule_isSome_iff,
    ← groupFromSchedule_isSome_iff, ← groupFromSchedule_isSome_iff,
    ← groupFromSchedule_isSome_iff, ← groupFromSchedule_isSome_iff,
    ← groupFromSchedule_isSome_iff]
  tauto
refine ⟨hiff, ?_, ?_⟩
· intro k hk hnone
  rcases hfs : OnChain.StarcoinGasParameters.from_on_chain_gas_schedule m with _ | p
  · rfl
  · exfalso
    have hs : (OnChain.StarcoinGasParameters.from_on_chain_gas_schedule m).isSome = true := by
      rw [hfs]; rfl
    have h2 := hiff.mp hs k hk
    rw [hnone] at h2
    simp at h2
· intro p hp
  unfold OnChain.StarcoinGasParameters.from_on_chain_gas_schedule at hp
  rcases h1 : groupFromSchedule miscKeys m with _ | mi <;> rw [h1] at hp
  · simp at hp
  rcases h2 : OnChain.NativeGasParameters.from_on_chain_gas_schedule m with _ | na <;>
    rw [h2] at hp
  · simp at hp
  rcases h3 : groupFromSchedule instrKeys m with _ | ins <;> rw [h3] at hp
  · simp at hp
  rcases h4 : groupFromSchedule txnKeys m with _ | tx <;> rw [h4] at hp
  · simp at hp
  have hp2 : (⟨mi, ins, tx, na⟩ : OnChain.StarcoinGasParameters) = p := by
    simpa using hp
  subst hp2
  exact ⟨rfl, rfl, rfl, rfl⟩

/-- Witness for C5 at the concrete encoded initial schedule: decoding
succeeds and each group equals its own decode. -/
theorem from_complete_witness :
OnChain.groupFromSchedule OnChain.miscKeys sampleSchedule
  = some OnChain.StarcoinGasParameters.initial.misc
∧ OnChain.groupFromSchedule OnChain.instrKeys sampleSchedule
  = some OnChain.StarcoinGasParameters.initial.instr
∧ OnChain.groupFromSchedule OnChain.txnKeys sampleSchedule
  = some OnChain.StarcoinGasParameters.initial.txn
∧ OnChain.NativeGasParameters.from_on_chain_gas_schedule sampleSchedule
  = some OnChain.StarcoinGasParameters.initial.natives :=
(from_on_chain_gas_schedule_complete sampleSchedule).2.2
  OnChain.StarcoinGasParameters.initial (by decide)

/-- C9: decoding is monotone — a schedule extended with extra entries
whose names are not among the required names is still accepted and decodes
to the same parameter value. -/
theorem from_on_chain_gas_schedule_monotone (m extra : OnChain.Schedule)
(p : OnChain.StarcoinGasParameters)
(_hextra : ∀ q ∈ extra, q.1 ∉ requiredKeys)
(hm : OnChain.StarcoinGasParameters.from_on_chain_gas_schedule m = some p) :
OnChain.StarcoinGasParameters.from_on_chain_gas_schedule (m ++ extra) = some p := by
unfold OnChain.StarcoinGasParameters.from_on_chain_gas_schedule at hm ⊢
rcases h1 : groupFromSchedule miscKeys m with _ | mi <;> rw [h1] at hm
· simp at hm
rcases h2 : OnChain.NativeGasParameters.from_on_chain_gas_schedule m with _ | na <;>
  rw [h2] at hm
· simp at hm
rcases h3 : groupFromSchedule instrKeys m with _ | ins <;> rw [h3] at hm
· simp at hm
rcases h4 : groupFromSchedule txnKeys m with _ | tx <;> rw [h4] at hm
· simp at hm
rw [groupFromSchedule_append _ _ extra _ h1, native_from_append _ extra _ h2,
  groupFromSchedule_append _ _ extra _ h3,
  groupFromSchedule_append _ _ extra _ h4]
simpa using hm

/-- Witness for C9: the encoded initial schedule extended with one
unrecognized entry still decodes, to the initial parameters. -/
theorem from_monotone_witness :
OnChain.StarcoinGasParameters.from_on_chain_gas_schedule
  (sampleSchedule ++ [("zz.unknown", 9)])
  = some OnChain.StarcoinGasParameters.initial :=
from_on_chain_gas_schedule_monotone sampleSchedule [("zz.unknown", 9)]
  OnChain.StarcoinGasParameters.initial (by decide) (by decide)

/-- C4 counterexample: the schedule consisting of the initial encoding
plus one unrecognized entry is accepted by the decoder, yet re-encoding
the decoded value does not reproduce it — encode(decode(S)) differs from
S for this accepted S. -/
theorem schedule_roundtrip_counterexample :
(OnChain.StarcoinGasParameters.from_on_chain_gas_schedule badSchedule).isSome = true
∧ (OnChain.StarcoinGasParameters.from_on_chain_gas_schedule badSchedule).map
    OnChain.StarcoinGasParameters.to_on_chain_gas_schedule ≠ some badSchedule :=
⟨by decide, by decide⟩

/-- C4 amended: encoding the initial-default top-level parameters,
decoding that schedule, and re-encoding the result yields a (name, value)
list identical — same names, same values, same order — to the first
encoding. -/
theorem initial_schedule_roundtrip :
(OnChain.StarcoinGasParameters.from_on_chain_gas_schedule
    OnChain.StarcoinGasParameters.initial.to_on_chain_gas_schedule).map
  OnChain.StarcoinGasParameters.to_on_chain_gas_schedule
  = some OnChain.StarcoinGasParameters.initial.to_on_chain_gas_schedule := by
decide

end StarcoinGas
